import Mathlib

/-!
Verification of the SignalWire Lab 2.6 state-management agent
(src/reference/solution.py) against its natural-language specification.

The Python module defines a ServiceAgent with a static customer table,
a global-data store seeded at session init, and six SWAIG tool handlers:
identify_customer, get_company_info, create_ticket, add_ticket_note,
get_ticket_summary, escalate_ticket.  Each handler receives call
arguments and a snapshot of the session global data and returns a
message plus an optional patch that the host merges (key-wise
overwrite) into the global data.

This file is a shallow embedding of that module: the wall clock
(datetime.now()) becomes an explicit DateTime argument, the global-data
dict becomes a record of optional fields (none = key absent), handlers
become pure functions, and the one place where the Python code throws
on a missing key (dict subscript in get_company_info) is modelled with
Except.  The in-place list mutation in add_ticket_note (notes.append on
the list obtained from the snapshot) is modelled by returning, next to
the message and patch, the state of the caller's snapshot after the
call.
-/

/-! ## Time model: datetime.now(), strftime, isoformat -/

/-- A Python datetime value. Python's datetime invariant bounds the
fields (MINYEAR = 1, MAXYEAR = 9999). -/
structure DateTime where
  year : Nat
  month : Nat
  day : Nat
  hour : Nat
  minute : Nat
  second : Nat
  microsecond : Nat
deriving DecidableEq, Repr

/-- Field bounds maintained by Python's datetime constructor. -/
def DateTime.Valid (t : DateTime) : Prop :=
  1 ≤ t.year ∧ t.year ≤ 9999 ∧ 1 ≤ t.month ∧ t.month ≤ 12 ∧
  1 ≤ t.day ∧ t.day ≤ 31 ∧ t.hour ≤ 23 ∧ t.minute ≤ 59 ∧
  t.second ≤ 59 ∧ t.microsecond ≤ 999999

instance (t : DateTime) : Decidable t.Valid := by
  unfold DateTime.Valid; infer_instance

/-- The decimal digit character for n (n is always a remainder mod 10
at use sites; the catch-all arm keeps the function total). -/
def digitChar10 (n : Nat) : Char :=
  match n with
  | 0 => '0' | 1 => '1' | 2 => '2' | 3 => '3' | 4 => '4'
  | 5 => '5' | 6 => '6' | 7 => '7' | 8 => '8' | _ => '9'

/-- Worker for natToDigits: peels off the least significant digit into
the accumulator.  The fuel argument only forces structural termination;
natToDigits always supplies enough of it. -/
def natToDigitsGo : Nat → Nat → List Char → List Char
  | 0, _, acc => acc
  | fuel + 1, n, acc =>
    if n < 10 then digitChar10 n :: acc
    else natToDigitsGo fuel (n / 10) (digitChar10 (n % 10) :: acc)

/-- Decimal digit characters of n, most significant first, as produced
by Python str()/strftime for a nonnegative integer. -/
def natToDigits (n : Nat) : List Char :=
  natToDigitsGo (n + 1) n []

/-- Python str() of a nonnegative integer. -/
def natToString (n : Nat) : String :=
  String.mk (natToDigits n)

/-- Zero-padding to width w, as strftime's %m/%d/%H/%M/%S (w = 2) and
isoformat's year field (w = 4) produce. -/
def padDigits (w : Nat) (n : Nat) : List Char :=
  List.replicate (w - (natToDigits n).length) '0' ++ natToDigits n

/-- strftime("%Y%m%d%H%M%S"): the 14-character timestamp used in
ticket ids.  %Y is rendered without padding (glibc behaviour); for the
four-digit years of any actual wall clock this is 4 characters. -/
def strftimeYmdHMS (t : DateTime) : String :=
  String.mk (natToDigits t.year ++ padDigits 2 t.month ++ padDigits 2 t.day ++
    padDigits 2 t.hour ++ padDigits 2 t.minute ++ padDigits 2 t.second)

/-- datetime.isoformat(): YYYY-MM-DDTHH:MM:SS, with a .ffffff suffix
only when microsecond is nonzero. -/
def DateTime.isoformat (t : DateTime) : String :=
  String.mk (padDigits 4 t.year ++ ['-'] ++ padDigits 2 t.month ++ ['-'] ++
    padDigits 2 t.day ++ ['T'] ++ padDigits 2 t.hour ++ [':'] ++
    padDigits 2 t.minute ++ [':'] ++ padDigits 2 t.second ++
    (if t.microsecond = 0 then [] else ['.'] ++ padDigits 6 t.microsecond))

/-! ## Data model: the global-data dict and patches -/

/-- One entry of ticket_notes: the dict {time: ..., content: ...}
appended by add_ticket_note. -/
structure NoteEntry where
  time : String
  content : String
deriving DecidableEq, Repr

/-- The session global-data dict, restricted to the keys this agent
ever reads or writes.  none models an absent key. A value of this type
also serves as a patch for update_global_data: there none means the key
is not in the patch. -/
structure GlobalData where
  company_name : Option String := none
  support_email : Option String := none
  support_phone : Option String := none
  business_hours : Option String := none
  is_business_hours : Option Bool := none
  greeting : Option String := none
  customer_id : Option String := none
  customer_name : Option String := none
  customer_tier : Option String := none
  identified : Option Bool := none
  ticket_id : Option String := none
  ticket_issue : Option String := none
  ticket_notes : Option (List NoteEntry) := none
  ticket_created : Option String := none
  escalated : Option Bool := none
  escalation_reason : Option String := none
  escalation_time : Option String := none
deriving DecidableEq, Repr

/-- Key-wise overwrite of one field: a key present in the patch wins. -/
def mergeField {α : Type} (p g : Option α) : Option α :=
  match p with
  | some v => some v
  | none => g

/-- dict.update semantics: merge a patch into the global data, each key
present in the patch overwriting the corresponding key. -/
def GlobalData.merge (g p : GlobalData) : GlobalData where
  company_name := mergeField p.company_name g.company_name
  support_email := mergeField p.support_email g.support_email
  support_phone := mergeField p.support_phone g.support_phone
  business_hours := mergeField p.business_hours g.business_hours
  is_business_hours := mergeField p.is_business_hours g.is_business_hours
  greeting := mergeField p.greeting g.greeting
  customer_id := mergeField p.customer_id g.customer_id
  customer_name := mergeField p.customer_name g.customer_name
  customer_tier := mergeField p.customer_tier g.customer_tier
  identified := mergeField p.identified g.identified
  ticket_id := mergeField p.ticket_id g.ticket_id
  ticket_issue := mergeField p.ticket_issue g.ticket_issue
  ticket_notes := mergeField p.ticket_notes g.ticket_notes
  ticket_created := mergeField p.ticket_created g.ticket_created
  escalated := mergeField p.escalated g.escalated
  escalation_reason := mergeField p.escalation_reason g.escalation_reason
  escalation_time := mergeField p.escalation_time g.escalation_time

/-- What the host does with a handler's optional patch: merge it, or
leave the global data alone when there is none. -/
def applyPatch (g : GlobalData) : Option GlobalData → GlobalData
  | some p => g.merge p
  | none => g

/-- global_data.get("ticket_notes", []): the notes list, defaulting to
empty when the key is absent. -/
def notesOf (g : GlobalData) : List NoteEntry :=
  g.ticket_notes.getD []

/-- Python truthiness test "if not ticket_id" on the value of
global_data.get("ticket_id"): None and the empty string are falsy. -/
def ticketIdFalsy : Option String → Bool
  | none => true
  | some s => s == ""

/-! ## The agent's static data -/

/-- One row of ServiceAgent.CUSTOMERS. -/
structure CustomerRecord where
  id : String
  name : String
  tier : String
deriving DecidableEq, Repr

/-- ServiceAgent.CUSTOMERS: the simulated customer database, keyed by
phone number. -/
def CUSTOMERS : List (String × CustomerRecord) :=
  [("+15551234567", ⟨"C001", "John Smith", "gold"⟩),
   ("+15559876543", ⟨"C002", "Jane Doe", "silver"⟩),
   ("+15551112222", ⟨"C003", "Bob Wilson", "bronze"⟩)]

/-- CUSTOMERS.get(phone): exact-match lookup. -/
def customersGet (phone : String) : Option CustomerRecord :=
  CUSTOMERS.lookup phone

/-- _setup_global_data: the agent global data seeded once at session
init from the current local hour. -/
def initGlobalData (hour : Nat) : GlobalData where
  company_name := some "TechCorp"
  support_email := some "support@techcorp.com"
  support_phone := some "1-800-TECH"
  business_hours := some "9 AM to 6 PM EST"
  is_business_hours := some (decide (9 ≤ hour ∧ hour < 18))
  greeting := some (if hour < 12 then "Good morning"
    else if hour < 17 then "Good afternoon" else "Good evening")

/-! ## Handler results -/

/-- The message/patch pair a handler hands back to the host: a
SwaigFunctionResult, with its optional update_global_data patch. -/
structure SwaigResult where
  message : String
  patch : Option GlobalData
deriving DecidableEq, Repr

/-- The full outcome of add_ticket_note.  Besides the message and the
patch, snapshotAfter records the state of the caller's global-data
snapshot when the handler returns: the Python code calls notes.append
on the very list object obtained from the snapshot, so when the
ticket_notes key was present the snapshot's list is mutated in place. -/
structure AddNoteOutcome where
  message : String
  patch : Option GlobalData
  snapshotAfter : GlobalData
deriving DecidableEq, Repr

/-! ## The six handlers -/

/-- identify_customer(args, raw_data): looks the phone number up in
CUSTOMERS; on a hit greets by name and tier (reading the greeting from
the agent global data, defaulting to "Hello") and patches the four
customer fields; on a miss returns a fallback and no patch. -/
def identify_customer (phone : String) (agentData : GlobalData) : SwaigResult :=
  match customersGet phone with
  | some customer =>
      let greeting := agentData.greeting.getD "Hello"
      { message := greeting ++ ", " ++ customer.name ++ "! I see you're a " ++
          customer.tier ++ " member. How can I help?",
        patch := some { customer_id := some customer.id,
                        customer_name := some customer.name,
                        customer_tier := some customer.tier,
                        identified := some true } }
  | none =>
      { message := "I don't recognize that number. Could you provide your account ID?",
        patch := none }

/-- get_company_info(args, raw_data): formats a fixed message from the
agent global data.  It uses bracket subscripts, so a missing key raises
KeyError; that is the only fallible access in the module and is
modelled with Except.  The snapshot argument mirrors raw_data, which
the handler ignores. -/
def get_company_info (agentData : GlobalData) (_snapshot : GlobalData) :
    Except String SwaigResult :=
  match agentData.company_name with
  | none => Except.error "KeyError: company_name"
  | some cn =>
    match agentData.business_hours with
    | none => Except.error "KeyError: business_hours"
    | some bh =>
      match agentData.support_email with
      | none => Except.error "KeyError: support_email"
      | some se =>
        Except.ok
          { message := "You've reached " ++ cn ++ ". Our hours are " ++ bh ++
              ". Email us at " ++ se ++ ".",
            patch := none }

/-- The customer_id binding in create_ticket:
global_data.get("customer_id", "UNKNOWN").  The source computes this
default but never uses the value afterwards. -/
def create_ticket_customer_id (gd : GlobalData) : String :=
  gd.customer_id.getD "UNKNOWN"

/-- The customer_name binding in create_ticket:
global_data.get("customer_name", "Customer"). -/
def create_ticket_customer_name (gd : GlobalData) : String :=
  gd.customer_name.getD "Customer"

/-- create_ticket(args, raw_data): generates a ticket id from the
current timestamp and patches the four ticket fields, resetting
ticket_notes to the empty list.  datetime.now() is called twice in the
source (once for the id, once for ticket_created), so the handler takes
the two clock readings tId and tCreated in that order. -/
def create_ticket (issue : String) (tId tCreated : DateTime) (gd : GlobalData) :
    SwaigResult :=
  let _customer_id := create_ticket_customer_id gd
  let customer_name := create_ticket_customer_name gd
  let ticket_id := "TKT-" ++ strftimeYmdHMS tId
  { message := "I've created ticket " ++ ticket_id ++ " for you, " ++
      customer_name ++ ". Is there anything else about this issue?",
    patch := some { ticket_id := some ticket_id,
                    ticket_issue := some issue,
                    ticket_notes := some [],
                    ticket_created := some tCreated.isoformat } }

/-- add_ticket_note(args, raw_data): when ticket_id is falsy (absent or
empty) answers with a fallback and no patch; otherwise appends
{time, content} to the notes list and patches ticket_notes.  The append
happens in place on the list taken from the snapshot, so snapshotAfter
reflects the mutation whenever the snapshot actually held the list (a
snapshot without the key yielded the fresh default list instead). -/
def add_ticket_note (note : String) (now : DateTime) (gd : GlobalData) :
    AddNoteOutcome :=
  let notes := notesOf gd
  if ticketIdFalsy gd.ticket_id then
    { message := "No ticket found. Would you like me to create one?",
      patch := none,
      snapshotAfter := gd }
  else
    let tid := gd.ticket_id.getD ""
    let notes2 := notes ++ [{ time := now.isoformat, content := note }]
    { message := "Added note to ticket " ++ tid ++ ". Total notes: " ++
        natToString notes2.length ++ ".",
      patch := some { ticket_notes := some notes2 },
      snapshotAfter :=
        if gd.ticket_notes.isSome then { gd with ticket_notes := some notes2 }
        else gd }

/-- get_ticket_summary(args, raw_data): with a falsy ticket_id answers
"No active ticket."; otherwise formats the issue and note count.  Never
patches. -/
def get_ticket_summary (gd : GlobalData) : SwaigResult :=
  let issue := gd.ticket_issue.getD "No issue recorded"
  let notes := notesOf gd
  let customer_name := gd.customer_name.getD "Customer"
  if ticketIdFalsy gd.ticket_id then
    { message := "No active ticket.", patch := none }
  else
    { message := "Ticket " ++ gd.ticket_id.getD "" ++ " for " ++ customer_name ++
        ": " ++ issue ++ ". " ++ natToString notes.length ++ " note(s) added.",
      patch := none }

/-- escalate_ticket(args, raw_data): with a falsy ticket_id answers
with a fallback and no patch; otherwise marks the ticket escalated. -/
def escalate_ticket (reason : String) (now : DateTime) (gd : GlobalData) :
    SwaigResult :=
  if ticketIdFalsy gd.ticket_id then
    { message := "No ticket to escalate. Let me create one first.",
      patch := none }
  else
    { message := "Ticket " ++ gd.ticket_id.getD "" ++
        " has been escalated. A supervisor will contact you within 2 hours.",
      patch := some { escalated := some true,
                      escalation_reason := some reason,
                      escalation_time := some now.isoformat } }

/-! ## Arithmetic of decimal rendering -/

theorem digitChar10_isDigit (n : Nat) : (digitChar10 n).isDigit = true := by
  unfold digitChar10
  split <;> decide

theorem natToDigitsGo_length (fuel : Nat) :
    ∀ n acc, n < fuel →
      (natToDigitsGo fuel n acc).length = Nat.log 10 n + 1 + acc.length := by
  induction fuel with
  | zero =>
    intro n acc h
    omega
  | succ fuel ih =>
    intro n acc h
    rw [natToDigitsGo]
    split
    · next hlt =>
      have h0 : Nat.log 10 n = 0 := Nat.log_eq_zero_iff.mpr (Or.inl hlt)
      simp [h0]
      omega
    · next hge =>
      rw [ih (n / 10) _ (by omega), Nat.log_div_base]
      have hlog : 0 < Nat.log 10 n := Nat.log_pos (by omega) (by omega)
      simp [List.length_cons]
      omega

theorem natToDigitsGo_isDigit (fuel : Nat) :
    ∀ n acc c, c ∈ natToDigitsGo fuel n acc → c.isDigit = true ∨ c ∈ acc := by
  induction fuel with
  | zero =>
    intro n acc c hc
    exact Or.inr hc
  | succ fuel ih =>
    intro n acc c hc
    rw [natToDigitsGo] at hc
    split at hc
    · rcases List.mem_cons.mp hc with h | h
      · exact Or.inl (h ▸ digitChar10_isDigit _)
      · exact Or.inr h
    · rcases ih (n / 10) _ c hc with h | h
      · exact Or.inl h
      · rcases List.mem_cons.mp h with h2 | h2
        · exact Or.inl (h2 ▸ digitChar10_isDigit _)
        · exact Or.inr h2

theorem natToDigits_length (n : Nat) :
    (natToDigits n).length = Nat.log 10 n + 1 := by
  have h := natToDigitsGo_length (n + 1) n [] (by omega)
  simpa [natToDigits] using h

theorem natToDigits_isDigit (n : Nat) :
    ∀ c ∈ natToDigits n, c.isDigit = true := by
  intro c hc
  rcases natToDigitsGo_isDigit (n + 1) n [] c hc with h | h
  · exact h
  · simp at h

theorem padDigits_length (w n : Nat) (hw : 0 < w) (h : n < 10 ^ w) :
    (padDigits w n).length = w := by
  have hle : (natToDigits n).length ≤ w := by
    rw [natToDigits_length]
    rcases Nat.eq_zero_or_pos n with h0 | h0
    · subst h0
      simp [Nat.log_zero_right]
      omega
    · have := Nat.log_lt_of_lt_pow (by omega : n ≠ 0) h
      omega
  simp [padDigits, List.length_append, List.length_replicate]
  omega

theorem padDigits_isDigit (w n : Nat) :
    ∀ c ∈ padDigits w n, c.isDigit = true := by
  intro c hc
  rw [padDigits, List.mem_append] at hc
  rcases hc with hc | hc
  · rw [List.eq_of_mem_replicate hc]
    decide
  · exact natToDigits_isDigit n c hc

theorem natToDigits_year_length (y : Nat) (h1 : 1000 ≤ y) (h2 : y ≤ 9999) :
    (natToDigits y).length = 4 := by
  have e3 : (10 : Nat) ^ 3 = 1000 := by norm_num
  have e4 : (10 : Nat) ^ (3 + 1) = 10000 := by norm_num
  have hlog : Nat.log 10 y = 3 :=
    Nat.log_eq_of_pow_le_of_lt_pow (by omega) (by omega)
  rw [natToDigits_length, hlog]

theorem strftimeYmdHMS_length (t : DateTime) (hv : t.Valid) (hy : 1000 ≤ t.year) :
    (strftimeYmdHMS t).length = 14 := by
  obtain ⟨_, h2, _, h4, _, h6, h7, h8, h9, _⟩ := hv
  have e2 : (10 : Nat) ^ 2 = 100 := by norm_num
  show (natToDigits t.year ++ padDigits 2 t.month ++ padDigits 2 t.day ++
    padDigits 2 t.hour ++ padDigits 2 t.minute ++ padDigits 2 t.second).length = 14
  simp only [List.length_append]
  rw [natToDigits_year_length t.year hy h2,
    padDigits_length 2 t.month (by omega) (by omega),
    padDigits_length 2 t.day (by omega) (by omega),
    padDigits_length 2 t.hour (by omega) (by omega),
    padDigits_length 2 t.minute (by omega) (by omega),
    padDigits_length 2 t.second (by omega) (by omega)]

theorem strftimeYmdHMS_digits (t : DateTime) :
    ∀ c ∈ (strftimeYmdHMS t).data, c.isDigit = true := by
  intro c hc
  have : c ∈ natToDigits t.year ++ padDigits 2 t.month ++ padDigits 2 t.day ++
      padDigits 2 t.hour ++ padDigits 2 t.minute ++ padDigits 2 t.second := hc
  simp only [List.mem_append] at this
  rcases this with ((((hc' | hc') | hc') | hc') | hc') | hc'
  · exact natToDigits_isDigit _ c hc'
  · exact padDigits_isDigit _ _ c hc'
  · exact padDigits_isDigit _ _ c hc'
  · exact padDigits_isDigit _ _ c hc'
  · exact padDigits_isDigit _ _ c hc'
  · exact padDigits_isDigit _ _ c hc'

/-! ## Claims -/

/-- C1: for every phone number present in the static customer table,
identify_customer returns a message containing the customer's name and
tier, and its returned patch sets customer_id, customer_name,
customer_tier, and identified = true to that customer's values (so the
merged global data carries them). -/
theorem C1_identify_customer_hit (phone : String) (customer : CustomerRecord)
    (hour : Nat) (gd : GlobalData)
    (h : customersGet phone = some customer) :
    (∃ pre mid post : String,
      (identify_customer phone (initGlobalData hour)).message =
        pre ++ customer.name ++ mid ++ customer.tier ++ post) ∧
    (identify_customer phone (initGlobalData hour)).patch =
      some { customer_id := some customer.id,
             customer_name := some customer.name,
             customer_tier := some customer.tier,
             identified := some true } ∧
    (applyPatch gd (identify_customer phone (initGlobalData hour)).patch).customer_id =
      some customer.id ∧
    (applyPatch gd (identify_customer phone (initGlobalData hour)).patch).customer_name =
      some customer.name ∧
    (applyPatch gd (identify_customer phone (initGlobalData hour)).patch).customer_tier =
      some customer.tier ∧
    (applyPatch gd (identify_customer phone (initGlobalData hour)).patch).identified =
      some true := by
  refine ⟨⟨(initGlobalData hour).greeting.getD "Hello" ++ ", ",
      "! I see you're a ", " member. How can I help?", ?_⟩, ?_, ?_, ?_, ?_, ?_⟩ <;>
    simp [identify_customer, h, applyPatch, GlobalData.merge, mergeField,
      String.append_assoc]

/-- C1 witness: the table hit at phone +15551234567 (John Smith, gold),
with session hour 10 and an empty global-data snapshot. -/
theorem C1_witness :
    customersGet "+15551234567" = some ⟨"C001", "John Smith", "gold"⟩ ∧
    ((∃ pre mid post : String,
      (identify_customer "+15551234567" (initGlobalData 10)).message =
        pre ++ "John Smith" ++ mid ++ "gold" ++ post) ∧
    (identify_customer "+15551234567" (initGlobalData 10)).patch =
      some { customer_id := some "C001",
             customer_name := some "John Smith",
             customer_tier := some "gold",
             identified := some true } ∧
    (applyPatch {} (identify_customer "+15551234567" (initGlobalData 10)).patch).customer_id =
      some "C001" ∧
    (applyPatch {} (identify_customer "+15551234567" (initGlobalData 10)).patch).customer_name =
      some "John Smith" ∧
    (applyPatch {} (identify_customer "+15551234567" (initGlobalData 10)).patch).customer_tier =
      some "gold" ∧
    (applyPatch {} (identify_customer "+15551234567" (initGlobalData 10)).patch).identified =
      some true) :=
  ⟨by decide,
   C1_identify_customer_hit "+15551234567" ⟨"C001", "John Smith", "gold"⟩ 10 {}
     (by decide)⟩

/-- C2: for every issue string and global-data snapshot, create_ticket
patches ticket_id = TKT- followed by exactly 14 decimal digits (the
clock reading formatted YYYYMMDDHHMMSS), ticket_issue = the input
issue, ticket_notes = [], and ticket_created = the clock reading in
ISO-8601.  The clock hypotheses say the first datetime.now() reading is
a well-formed datetime with a four-digit year, as any actual wall
clock produces. -/
theorem C2_create_ticket_format (issue : String) (gd : GlobalData)
    (tId tCreated : DateTime) (hv : tId.Valid) (hy : 1000 ≤ tId.year) :
    ∃ s : String,
      (create_ticket issue tId tCreated gd).patch =
        some { ticket_id := some ("TKT-" ++ s),
               ticket_issue := some issue,
               ticket_notes := some [],
               ticket_created := some tCreated.isoformat } ∧
      s.length = 14 ∧ (∀ c ∈ s.data, c.isDigit = true) := by
  exact ⟨strftimeYmdHMS tId, rfl, strftimeYmdHMS_length tId hv hy,
    strftimeYmdHMS_digits tId⟩

/-- C2 witness: creating a ticket on 2026-10-12 09:30:00 with an empty
snapshot. -/
theorem C2_witness :
    (⟨2026, 10, 12, 9, 30, 0, 0⟩ : DateTime).Valid ∧
    1000 ≤ (⟨2026, 10, 12, 9, 30, 0, 0⟩ : DateTime).year ∧
    ∃ s : String,
      (create_ticket "login failure" ⟨2026, 10, 12, 9, 30, 0, 0⟩
          ⟨2026, 10, 12, 9, 30, 0, 0⟩ {}).patch =
        some { ticket_id := some ("TKT-" ++ s),
               ticket_issue := some "login failure",
               ticket_notes := some [],
               ticket_created := some (⟨2026, 10, 12, 9, 30, 0, 0⟩ : DateTime).isoformat } ∧
      s.length = 14 ∧ (∀ c ∈ s.data, c.isDigit = true) :=
  ⟨by decide, by decide,
   C2_create_ticket_format "login failure" {} ⟨2026, 10, 12, 9, 30, 0, 0⟩
     ⟨2026, 10, 12, 9, 30, 0, 0⟩ (by decide) (by decide)⟩

/-- C3: for every snapshot whose ticket_id key is absent, each of
add_ticket_note, escalate_ticket, and get_ticket_summary returns its
conversational fallback message with no patch, so the merged global
data is unchanged; add_ticket_note also leaves the snapshot object
itself untouched. -/
theorem C3_missing_ticket_short_circuit (note reason : String) (now : DateTime)
    (gd : GlobalData) (h : gd.ticket_id = none) :
    (add_ticket_note note now gd).message =
      "No ticket found. Would you like me to create one?" ∧
    (add_ticket_note note now gd).patch = none ∧
    (add_ticket_note note now gd).snapshotAfter = gd ∧
    applyPatch gd (add_ticket_note note now gd).patch = gd ∧
    (get_ticket_summary gd).message = "No active ticket." ∧
    (get_ticket_summary gd).patch = none ∧
    applyPatch gd (get_ticket_summary gd).patch = gd ∧
    (escalate_ticket reason now gd).message =
      "No ticket to escalate. Let me create one first." ∧
    (escalate_ticket reason now gd).patch = none ∧
    applyPatch gd (escalate_ticket reason now gd).patch = gd := by
  have hf : ticketIdFalsy gd.ticket_id = true := by rw [h]; rfl
  refine ⟨?_, ?_, ?_, ?_, ?_, ?_, ?_, ?_, ?_, ?_⟩ <;>
    simp [add_ticket_note, get_ticket_summary, escalate_ticket, hf, applyPatch]

/-- C3 witness: the empty snapshot has no ticket_id, and all three
handlers short-circuit on it. -/
theorem C3_witness :
    (({} : GlobalData).ticket_id = none) ∧
    ((add_ticket_note "tried reset" ⟨2026, 10, 12, 9, 30, 0, 0⟩ {}).message =
      "No ticket found. Would you like me to create one?" ∧
    (add_ticket_note "tried reset" ⟨2026, 10, 12, 9, 30, 0, 0⟩ {}).patch = none ∧
    (add_ticket_note "tried reset" ⟨2026, 10, 12, 9, 30, 0, 0⟩ {}).snapshotAfter = {} ∧
    applyPatch {} (add_ticket_note "tried reset" ⟨2026, 10, 12, 9, 30, 0, 0⟩ {}).patch = {} ∧
    (get_ticket_summary {}).message = "No active ticket." ∧
    (get_ticket_summary {}).patch = none ∧
    applyPatch {} (get_ticket_summary {}).patch = {} ∧
    (escalate_ticket "stuck" ⟨2026, 10, 12, 9, 30, 0, 0⟩ {}).message =
      "No ticket to escalate. Let me create one first." ∧
    (escalate_ticket "stuck" ⟨2026, 10, 12, 9, 30, 0, 0⟩ {}).patch = none ∧
    applyPatch {} (escalate_ticket "stuck" ⟨2026, 10, 12, 9, 30, 0, 0⟩ {}).patch = {}) :=
  ⟨rfl,
   C3_missing_ticket_short_circuit "tried reset" "stuck"
     ⟨2026, 10, 12, 9, 30, 0, 0⟩ {} rfl⟩

/-- A reachable session state used to refute C4 as literally stated: a
ticket exists and already carries one note (added before the two calls
under consideration). -/
def c4State : GlobalData :=
  { ticket_id := some "TKT-20250101120000",
    ticket_notes := some [{ time := "2025-01-01T12:00:05", content := "X" }] }

/-- C4 counterexample: with ticket_id present but a note already on the
ticket, calling add_ticket_note with "A" then "B" yields note contents
["X", "A", "B"], not ["A", "B"] as the claim states. -/
theorem C4_counterexample :
    ¬ ((notesOf (applyPatch
          (applyPatch c4State
            (add_ticket_note "A" ⟨2025, 1, 1, 12, 1, 0, 0⟩ c4State).patch)
          (add_ticket_note "B" ⟨2025, 1, 1, 12, 2, 0, 0⟩
            (applyPatch c4State
              (add_ticket_note "A" ⟨2025, 1, 1, 12, 1, 0, 0⟩ c4State).patch)).patch)).map
        NoteEntry.content = ["A", "B"]) := by decide

/-- C4 amended: when ticket_id is present and non-empty and the notes
list starts empty, the first call appends {time, content} and reports
total 1, the second appends after it and reports total 2: the contents
end up ["A", "B"] in call order and the reported count grows. -/
theorem C4_add_note_append (tid note1 note2 : String) (t1 t2 : DateTime)
    (gd : GlobalData) (hid : gd.ticket_id = some tid) (hne : tid ≠ "")
    (hnotes : notesOf gd = []) :
    notesOf (applyPatch gd (add_ticket_note note1 t1 gd).patch) =
      [{ time := t1.isoformat, content := note1 }] ∧
    notesOf (applyPatch
        (applyPatch gd (add_ticket_note note1 t1 gd).patch)
        (add_ticket_note note2 t2
          (applyPatch gd (add_ticket_note note1 t1 gd).patch)).patch) =
      [{ time := t1.isoformat, content := note1 },
       { time := t2.isoformat, content := note2 }] ∧
    (add_ticket_note note1 t1 gd).message =
      "Added note to ticket " ++ tid ++ ". Total notes: " ++ natToString 1 ++ "." ∧
    (add_ticket_note note2 t2
        (applyPatch gd (add_ticket_note note1 t1 gd).patch)).message =
      "Added note to ticket " ++ tid ++ ". Total notes: " ++ natToString 2 ++ "." ∧
    (notesOf (applyPatch gd (add_ticket_note note1 t1 gd).patch)).length <
      (notesOf (applyPatch
        (applyPatch gd (add_ticket_note note1 t1 gd).patch)
        (add_ticket_note note2 t2
          (applyPatch gd (add_ticket_note note1 t1 gd).patch)).patch)).length := by
  have hf : ticketIdFalsy gd.ticket_id = false := by
    rw [hid]
    simpa [ticketIdFalsy] using hne
  have hgetD : gd.ticket_id.getD "" = tid := by rw [hid]; rfl
  have hnotes2 : gd.ticket_notes.getD [] = [] := hnotes
  refine ⟨?_, ?_, ?_, ?_, ?_⟩ <;>
    simp [add_ticket_note, hf, hgetD, hnotes2, applyPatch, GlobalData.merge,
      mergeField, notesOf, ticketIdFalsy, hid, hne]

/-- C4 witness: a fresh non-empty ticket id with empty notes, then two
calls with "A" and "B". -/
theorem C4_witness :
    (({ ticket_id := some "TKT-20261012093000",
        ticket_notes := some [] } : GlobalData).ticket_id =
      some "TKT-20261012093000") ∧
    ("TKT-20261012093000" ≠ "") ∧
    (notesOf { ticket_id := some "TKT-20261012093000", ticket_notes := some [] } = []) ∧
    (notesOf (applyPatch
        { ticket_id := some "TKT-20261012093000", ticket_notes := some [] }
        (add_ticket_note "A" ⟨2026, 10, 12, 9, 31, 0, 0⟩
          { ticket_id := some "TKT-20261012093000", ticket_notes := some [] }).patch) =
      [{ time := (⟨2026, 10, 12, 9, 31, 0, 0⟩ : DateTime).isoformat, content := "A" }] ∧
    notesOf (applyPatch
        (applyPatch
          { ticket_id := some "TKT-20261012093000", ticket_notes := some [] }
          (add_ticket_note "A" ⟨2026, 10, 12, 9, 31, 0, 0⟩
            { ticket_id := some "TKT-20261012093000", ticket_notes := some [] }).patch)
        (add_ticket_note "B" ⟨2026, 10, 12, 9, 32, 0, 0⟩
          (applyPatch
            { ticket_id := some "TKT-20261012093000", ticket_notes := some [] }
            (add_ticket_note "A" ⟨2026, 10, 12, 9, 31, 0, 0⟩
              { ticket_id := some "TKT-20261012093000", ticket_notes := some [] }).patch)).patch) =
      [{ time := (⟨2026, 10, 12, 9, 31, 0, 0⟩ : DateTime).isoformat, content := "A" },
       { time := (⟨2026, 10, 12, 9, 32, 0, 0⟩ : DateTime).isoformat, content := "B" }] ∧
    (add_ticket_note "A" ⟨2026, 10, 12, 9, 31, 0, 0⟩
        { ticket_id := some "TKT-20261012093000", ticket_notes := some [] }).message =
      "Added note to ticket " ++ "TKT-20261012093000" ++ ". Total notes: " ++
        natToString 1 ++ "." ∧
    (add_ticket_note "B" ⟨2026, 10, 12, 9, 32, 0, 0⟩
        (applyPatch
          { ticket_id := some "TKT-20261012093000", ticket_notes := some [] }
          (add_ticket_note "A" ⟨2026, 10, 12, 9, 31, 0, 0⟩
            { ticket_id := some "TKT-20261012093000", ticket_notes := some [] }).patch)).message =
      "Added note to ticket " ++ "TKT-20261012093000" ++ ". Total notes: " ++
        natToString 2 ++ "." ∧
    (notesOf (applyPatch
        { ticket_id := some "TKT-20261012093000", ticket_notes := some [] }
        (add_ticket_note "A" ⟨2026, 10, 12, 9, 31, 0, 0⟩
          { ticket_id := some "TKT-20261012093000", ticket_notes := some [] }).patch)).length <
      (notesOf (applyPatch
        (applyPatch
          { ticket_id := some "TKT-20261012093000", ticket_notes := some [] }
          (add_ticket_note "A" ⟨2026, 10, 12, 9, 31, 0, 0⟩
            { ticket_id := some "TKT-20261012093000", ticket_notes := some [] }).patch)
        (add_ticket_note "B" ⟨2026, 10, 12, 9, 32, 0, 0⟩
          (applyPatch
            { ticket_id := some "TKT-20261012093000", ticket_notes := some [] }
            (add_ticket_note "A" ⟨2026, 10, 12, 9, 31, 0, 0⟩
              { ticket_id := some "TKT-20261012093000", ticket_notes := some [] }).patch)).patch)).length) :=
  ⟨rfl, by decide, rfl,
   C4_add_note_append "TKT-20261012093000" "A" "B"
     ⟨2026, 10, 12, 9, 31, 0, 0⟩ ⟨2026, 10, 12, 9, 32, 0, 0⟩
     { ticket_id := some "TKT-20261012093000", ticket_notes := some [] }
     rfl (by decide) rfl⟩

/-- A session state with an active ticket carrying one note, used to
refute the unrestricted append-only invariant. -/
def c5State : GlobalData :=
  { ticket_id := some "TKT-20250101120000",
    ticket_notes := some [{ time := "2025-01-01T12:00:05", content := "first" }] }

/-- C5 counterexample: create_ticket is one of the six operations, and
merging its patch over a state that already has a note replaces
ticket_notes by the empty list, which extends no non-empty list: the
existing entry is dropped. -/
theorem C5_counterexample :
    ¬ ∃ tail : List NoteEntry,
      notesOf (applyPatch c5State
        (create_ticket "outage" ⟨2025, 1, 1, 12, 5, 0, 0⟩
          ⟨2025, 1, 1, 12, 5, 0, 0⟩ c5State).patch) =
      notesOf c5State ++ tail := by
  rintro ⟨tail, h⟩
  simp [c5State, create_ticket, applyPatch, GlobalData.merge, mergeField,
    notesOf] at h

/-- C5 amended: ticket_notes is append-only under five of the six
operations — identify_customer, get_company_info, add_ticket_note,
get_ticket_summary and escalate_ticket never remove, replace or
reorder existing entries — while create_ticket resets ticket_notes to
the empty list (starting the note list of the new ticket). -/
theorem C5_notes_append_only (phone note reason issue : String) (hour : Nat)
    (t tId tCreated : DateTime) (gd : GlobalData) (r : SwaigResult)
    (hinfo : get_company_info (initGlobalData hour) gd = Except.ok r) :
    notesOf (applyPatch gd (identify_customer phone (initGlobalData hour)).patch) =
      notesOf gd ∧
    notesOf (applyPatch gd r.patch) = notesOf gd ∧
    (∃ tail : List NoteEntry,
      notesOf (applyPatch gd (add_ticket_note note t gd).patch) =
        notesOf gd ++ tail) ∧
    notesOf (applyPatch gd (get_ticket_summary gd).patch) = notesOf gd ∧
    notesOf (applyPatch gd (escalate_ticket reason t gd).patch) = notesOf gd ∧
    notesOf (applyPatch gd (create_ticket issue tId tCreated gd).patch) = [] := by
  have hr : r.patch = none := by
    simp only [get_company_info, initGlobalData] at hinfo
    cases hinfo
    rfl
  refine ⟨?_, ?_, ?_, ?_, ?_, ?_⟩
  · cases h : customersGet phone <;>
      simp [identify_customer, h, applyPatch, GlobalData.merge, mergeField, notesOf]
  · simp [hr, applyPatch]
  · by_cases h : ticketIdFalsy gd.ticket_id = true
    · exact ⟨[], by simp [add_ticket_note, h, applyPatch]⟩
    · refine ⟨[{ time := t.isoformat, content := note }], ?_⟩
      simp only [Bool.not_eq_true] at h
      simp [add_ticket_note, h, applyPatch, GlobalData.merge, mergeField, notesOf]
  · by_cases h : ticketIdFalsy gd.ticket_id = true <;>
      simp [get_ticket_summary, h, applyPatch]
  · by_cases h : ticketIdFalsy gd.ticket_id = true
    · simp [escalate_ticket, h, applyPatch]
    · simp only [Bool.not_eq_true] at h
      simp [escalate_ticket, h, applyPatch, GlobalData.merge, mergeField, notesOf]
  · simp [create_ticket, applyPatch, GlobalData.merge, mergeField, notesOf]

/-- C5 witness: the amended append-only statement at the empty
snapshot, session hour 10, and concrete call arguments. -/
theorem C5_witness :
    (get_company_info (initGlobalData 10) {} = Except.ok
      { message := "You've reached TechCorp. Our hours are 9 AM to 6 PM EST. Email us at support@techcorp.com.",
        patch := none }) ∧
    (notesOf (applyPatch {} (identify_customer "+15551234567" (initGlobalData 10)).patch) =
      notesOf {} ∧
    notesOf (applyPatch {}
      ({ message := "You've reached TechCorp. Our hours are 9 AM to 6 PM EST. Email us at support@techcorp.com.",
         patch := none } : SwaigResult).patch) = notesOf {} ∧
    (∃ tail : List NoteEntry,
      notesOf (applyPatch {}
        (add_ticket_note "checked logs" ⟨2026, 10, 12, 9, 31, 0, 0⟩ {}).patch) =
        notesOf {} ++ tail) ∧
    notesOf (applyPatch {} (get_ticket_summary {}).patch) = notesOf {} ∧
    notesOf (applyPatch {}
      (escalate_ticket "unresolved" ⟨2026, 10, 12, 9, 31, 0, 0⟩ {}).patch) = notesOf {} ∧
    notesOf (applyPatch {}
      (create_ticket "outage" ⟨2026, 10, 12, 9, 31, 0, 0⟩
        ⟨2026, 10, 12, 9, 31, 0, 0⟩ {}).patch) = []) :=
  ⟨rfl,
   C5_notes_append_only "+15551234567" "checked logs" "unresolved" "outage" 10
     ⟨2026, 10, 12, 9, 31, 0, 0⟩ ⟨2026, 10, 12, 9, 31, 0, 0⟩
     ⟨2026, 10, 12, 9, 31, 0, 0⟩ {}
     { message := "You've reached TechCorp. Our hours are 9 AM to 6 PM EST. Email us at support@techcorp.com.",
       patch := none }
     rfl⟩

/-- C6: for every session-init hour 0-23, the seeded greeting is
Good morning below 12, Good afternoon from 12 up to 17, and
Good evening from 17 on, and is_business_hours is true exactly for
hours 9 through 17; in particular hour 8 gives Good morning, 14 gives
Good afternoon and 20 gives Good evening. -/
theorem C6_greeting_selection (hour : Nat) (hh : hour ≤ 23) :
    (hour < 12 → (initGlobalData hour).greeting = some "Good morning") ∧
    (12 ≤ hour → hour < 17 → (initGlobalData hour).greeting = some "Good afternoon") ∧
    (17 ≤ hour → (initGlobalData hour).greeting = some "Good evening") ∧
    ((initGlobalData hour).is_business_hours = some true ↔ 9 ≤ hour ∧ hour < 18) ∧
    (initGlobalData 8).greeting = some "Good morning" ∧
    (initGlobalData 14).greeting = some "Good afternoon" ∧
    (initGlobalData 20).greeting = some "Good evening" := by
  refine ⟨?_, ?_, ?_, ?_, by decide, by decide, by decide⟩
  · intro h
    simp [initGlobalData, h]
  · intro h1 h2
    simp [initGlobalData, h2]
    omega
  · intro h
    have h1 : ¬ hour < 12 := by omega
    have h2 : ¬ hour < 17 := by omega
    simp [initGlobalData, h1, h2]
  · simp [initGlobalData]

/-- C6 witness: hour 8 is in range and the properties hold there. -/
theorem C6_witness :
    (8 : Nat) ≤ 23 ∧
    (((8 : Nat) < 12 → (initGlobalData 8).greeting = some "Good morning") ∧
    (12 ≤ (8 : Nat) → (8 : Nat) < 17 → (initGlobalData 8).greeting = some "Good afternoon") ∧
    (17 ≤ (8 : Nat) → (initGlobalData 8).greeting = some "Good evening") ∧
    ((initGlobalData 8).is_business_hours = some true ↔ 9 ≤ (8 : Nat) ∧ (8 : Nat) < 18) ∧
    (initGlobalData 8).greeting = some "Good morning" ∧
    (initGlobalData 14).greeting = some "Good afternoon" ∧
    (initGlobalData 20).greeting = some "Good evening") :=
  ⟨by decide, C6_greeting_selection 8 (by decide)⟩

/-- C7: for every phone number absent from the customer table,
identify_customer returns the fallback message and no patch, so the
merged global data is unchanged. -/
theorem C7_identify_customer_miss (phone : String) (hour : Nat) (gd : GlobalData)
    (h : customersGet phone = none) :
    (identify_customer phone (initGlobalData hour)).message =
      "I don't recognize that number. Could you provide your account ID?" ∧
    (identify_customer phone (initGlobalData hour)).patch = none ∧
    applyPatch gd (identify_customer phone (initGlobalData hour)).patch = gd := by
  refine ⟨?_, ?_, ?_⟩ <;> simp [identify_customer, h, applyPatch]

/-- C7 witness: a number not in the table, at session hour 10, with the
empty snapshot. -/
theorem C7_witness :
    customersGet "+15550000001" = none ∧
    ((identify_customer "+15550000001" (initGlobalData 10)).message =
      "I don't recognize that number. Could you provide your account ID?" ∧
    (identify_customer "+15550000001" (initGlobalData 10)).patch = none ∧
    applyPatch {} (identify_customer "+15550000001" (initGlobalData 10)).patch = {}) :=
  ⟨by decide, C7_identify_customer_miss "+15550000001" 10 {} (by decide)⟩

/-- C8: no operation can throw or halt the session.  get_company_info,
the only handler that subscripts the global-data dict, succeeds for
every init hour and every snapshot (the agent data seeded at init holds
all three keys it reads), and each of the other five handlers returns a
message/patch result for every snapshot, including the empty one. -/
theorem C8_no_operation_throws (hour : Nat) (gd agentData : GlobalData)
    (phone note reason issue : String) (t tId tCreated : DateTime) :
    (∃ r : SwaigResult, get_company_info (initGlobalData hour) gd = Except.ok r) ∧
    (∃ m : String, ∃ p : Option GlobalData,
      identify_customer phone agentData = ⟨m, p⟩) ∧
    (∃ m : String, ∃ p : Option GlobalData,
      create_ticket issue tId tCreated gd = ⟨m, p⟩) ∧
    (∃ m : String, ∃ p : Option GlobalData, ∃ s : GlobalData,
      add_ticket_note note t gd = ⟨m, p, s⟩) ∧
    (∃ m : String, ∃ p : Option GlobalData, get_ticket_summary gd = ⟨m, p⟩) ∧
    (∃ m : String, ∃ p : Option GlobalData,
      escalate_ticket reason t gd = ⟨m, p⟩) :=
  ⟨⟨_, rfl⟩, ⟨_, _, rfl⟩, ⟨_, _, rfl⟩, ⟨_, _, _, rfl⟩, ⟨_, _, rfl⟩, ⟨_, _, rfl⟩⟩

/-- C9: the code contradicts the specified purity: add_ticket_note
calls append on the very list object held by its input snapshot, so on
a snapshot with an active ticket and a present ticket_notes key the
snapshot is mutated in place instead of staying unchanged.  At the
failing input (ticket TKT-20250101115900, empty notes, note "A") the
snapshot after the call carries the appended note. -/
theorem C9_snapshot_mutation :
    (add_ticket_note "A" ⟨2025, 1, 1, 12, 0, 0, 0⟩
        { ticket_id := some "TKT-20250101115900",
          ticket_notes := some [] }).snapshotAfter =
      { ticket_id := some "TKT-20250101115900",
        ticket_notes := some [{ time := "2025-01-01T12:00:00", content := "A" }] } ∧
    (add_ticket_note "A" ⟨2025, 1, 1, 12, 0, 0, 0⟩
        { ticket_id := some "TKT-20250101115900",
          ticket_notes := some [] }).snapshotAfter ≠
      { ticket_id := some "TKT-20250101115900", ticket_notes := some [] } := by
  refine ⟨by decide, by decide⟩

/-- C10: create_ticket succeeds without prior identification: with
customer_name absent the message addresses the caller as Customer and
the four ticket fields are still patched, and with customer_id absent
the code's customer_id binding defaults to UNKNOWN. -/
theorem C10_create_ticket_defaults (issue : String) (tId tCreated : DateTime)
    (gd : GlobalData) (hname : gd.customer_name = none)
    (hid : gd.customer_id = none) :
    (∃ tid : String,
      (create_ticket issue tId tCreated gd).message =
        "I've created ticket " ++ tid ++
          " for you, Customer. Is there anything else about this issue?" ∧
      (create_ticket issue tId tCreated gd).patch =
        some { ticket_id := some tid,
               ticket_issue := some issue,
               ticket_notes := some [],
               ticket_created := some tCreated.isoformat }) ∧
    create_ticket_customer_id gd = "UNKNOWN" := by
  refine ⟨⟨"TKT-" ++ strftimeYmdHMS tId, ?_, rfl⟩, ?_⟩
  · have hlit : (" for you, " : String) ++
        ("Customer" ++ ". Is there anything else about this issue?") =
        " for you, Customer. Is there anything else about this issue?" := by decide
    simp only [create_ticket, create_ticket_customer_name, hname, Option.getD_none]
    simp only [String.append_assoc]
    rw [hlit]
  · simp [create_ticket_customer_id, hid]

/-- C10 witness: the empty snapshot has neither customer_name nor
customer_id. -/
theorem C10_witness :
    (({} : GlobalData).customer_name = none) ∧
    (({} : GlobalData).customer_id = none) ∧
    ((∃ tid : String,
      (create_ticket "login failure" ⟨2026, 10, 12, 9, 30, 0, 0⟩
          ⟨2026, 10, 12, 9, 30, 0, 0⟩ {}).message =
        "I've created ticket " ++ tid ++
          " for you, Customer. Is there anything else about this issue?" ∧
      (create_ticket "login failure" ⟨2026, 10, 12, 9, 30, 0, 0⟩
          ⟨2026, 10, 12, 9, 30, 0, 0⟩ {}).patch =
        some { ticket_id := some tid,
               ticket_issue := some "login failure",
               ticket_notes := some [],
               ticket_created := some (⟨2026, 10, 12, 9, 30, 0, 0⟩ : DateTime).isoformat }) ∧
    create_ticket_customer_id {} = "UNKNOWN") :=
  ⟨rfl, rfl,
   C10_create_ticket_defaults "login failure" ⟨2026, 10, 12, 9, 30, 0, 0⟩
     ⟨2026, 10, 12, 9, 30, 0, 0⟩ {} rfl rfl⟩
